import Mathlib

/-!
Verification development for the fluent-forms hub backend.

The definitions below are a shallow embedding of the submission
synchronization engine (app/api/v1/sync.py), the email threading logic
(app/api/v1/email.py), the Gmail inbound reply matchers
(app/api/v1/email.py sync_gmail_inbox and app/tasks/gmail_tasks.py
poll_gmail_replies_task), and the quote-stripping helper
(app/services/gmail.py strip_quoted_text).

Conventions of the embedding:
- Nullable database columns and optional dict keys become Option.
- Python truthiness on strings (None and the empty string are falsy) is
  the function pyTruthy.
- The database session is explicit state: lists of rows, with primary
  keys handed out by counters.  Rows are kept in insertion order and
  the created_at column is a monotone counter, so the queries that
  order by created_at read the lists in order.
- External gateways (WordPress HTTP API, Gmail API) are boundaries:
  their responses are inputs of the modelled operations.  The WordPress
  entries endpoint is modelled by its documented pagination semantics
  over the full remote entry list.
- json.loads is modelled by an executable JSON parser over the subset
  of JSON the form payloads use (null, booleans, integers, strings,
  arrays, objects); a failed parse models the json.JSONDecodeError or
  TypeError branch.
-/

/-- Python truthiness of an optional string: None and the empty string
are falsy. -/
def pyTruthy : Option String → Bool
  | none => false
  | some s => s ≠ ""

/-- Python `x or d` for an optional string: the value when truthy, else
the default. -/
def pyOrStr (o : Option String) (d : String) : String :=
  match o with
  | some s => if s ≠ "" then s else d
  | none => d

/-- Characters Python treats as whitespace in str.strip and in the
regex class backslash-s (ASCII range, which is all the sources use). -/
def isPySpace (c : Char) : Bool :=
  c = ' ' || c = '\t' || c = '\n' || c = '\x0d' || c = '\x0c' || c = '\x0b'

/-- Python str.strip() on a char list: drop whitespace on both ends. -/
def pyStripList (cs : List Char) : List Char :=
  ((cs.dropWhile isPySpace).reverse.dropWhile isPySpace).reverse

/-- Python str.strip(). -/
def pyStrip (s : String) : String :=
  ⟨pyStripList s.data⟩

/-- Substring containment on char lists. -/
def containsSub (hay pat : List Char) : Bool :=
  (List.range (hay.length + 1)).any (fun i => pat.isPrefixOf (hay.drop i))

/-- Case-insensitive substring containment on char lists. -/
def containsSubCI (hay pat : List Char) : Bool :=
  containsSub (hay.map Char.toLower) (pat.map Char.toLower)

/-- Python `pat in s` substring test. -/
def pyContains (s pat : String) : Bool :=
  containsSub s.data pat.data

/-- Python str.splitlines() restricted to the line terminators that
occur in the sources (LF, CR, CRLF): split at terminators, and do not
produce a final empty line for a trailing terminator. -/
def pySplitlinesAux : List Char → List Char → List String
  | [], acc => if acc.isEmpty then [] else [⟨acc.reverse⟩]
  | '\x0d' :: '\n' :: rest, acc => (⟨acc.reverse⟩ : String) :: pySplitlinesAux rest []
  | '\x0d' :: rest, acc => (⟨acc.reverse⟩ : String) :: pySplitlinesAux rest []
  | '\n' :: rest, acc => (⟨acc.reverse⟩ : String) :: pySplitlinesAux rest []
  | c :: rest, acc => pySplitlinesAux rest (c :: acc)

/-- Python str.splitlines(). -/
def pySplitlines (s : String) : List String :=
  pySplitlinesAux s.data []

/-! ## JSON values and the model of json.loads -/

/-- JSON values as produced by json.loads on form entry payloads. -/
inductive Json where
  | null : Json
  | bool (b : Bool) : Json
  | num (n : Int) : Json
  | str (s : String) : Json
  | arr (elems : List Json) : Json
  | obj (fields : List (String × Json)) : Json

/-- Insert a key into an object field list with Python dict semantics:
an existing key keeps its position and gets the new value, a new key is
appended. -/
def dictInsert (fields : List (String × Json)) (k : String) (v : Json) :
    List (String × Json) :=
  match fields with
  | [] => [(k, v)]
  | (k0, v0) :: rest =>
      if k0 = k then (k0, v) :: rest else (k0, v0) :: dictInsert rest k v

/-- Python dict lookup (keys are unique after dictInsert). -/
def dictGet? (fields : List (String × Json)) (k : String) : Option Json :=
  match fields.find? (fun p => p.1 = k) with
  | some p => some p.2
  | none => none

/-- Python dict membership test. -/
def dictHas (fields : List (String × Json)) (k : String) : Bool :=
  (fields.find? (fun p => p.1 = k)).isSome

def jsonSkipWs (cs : List Char) : List Char :=
  cs.dropWhile (fun c => c = ' ' || c = '\t' || c = '\n' || c = '\x0d')

/-- Parse the characters of a JSON string literal after the opening
quote; returns the content and the remainder after the closing quote.
Handles the simple escapes; unicode escapes are outside the modelled
subset and fail. -/
def jsonParseStringBody : List Char → List Char → Option (String × List Char)
  | [], _ => none
  | '\x22' :: rest, acc => some (⟨acc.reverse⟩, rest)
  | '\\' :: e :: rest, acc =>
      if e = 'n' then jsonParseStringBody rest ('\n' :: acc)
      else if e = 't' then jsonParseStringBody rest ('\t' :: acc)
      else if e = 'r' then jsonParseStringBody rest ('\x0d' :: acc)
      else if e = '\x22' then jsonParseStringBody rest ('\x22' :: acc)
      else if e = '\\' then jsonParseStringBody rest ('\\' :: acc)
      else if e = '/' then jsonParseStringBody rest ('/' :: acc)
      else none
  | ['\\'], _ => none
  | c :: rest, acc => jsonParseStringBody rest (c :: acc)

/-- Digits to a natural number. -/
def digitsToNat (ds : List Char) : Nat :=
  ds.foldl (fun acc d => acc * 10 + (d.toNat - '0'.toNat)) 0

mutual

/-- Fuel-driven recursive-descent parser for a JSON value; returns the
value and the unconsumed remainder. -/
def jsonParseVal : Nat → List Char → Option (Json × List Char)
  | 0, _ => none
  | fuel + 1, cs =>
    match jsonSkipWs cs with
    | [] => none
    | '{' :: rest =>
        match jsonSkipWs rest with
        | '}' :: rest2 => some (Json.obj [], rest2)
        | rest2 => jsonParseObj fuel rest2 []
    | '[' :: rest =>
        match jsonSkipWs rest with
        | ']' :: rest2 => some (Json.arr [], rest2)
        | rest2 => jsonParseArr fuel rest2 []
    | '\x22' :: rest =>
        match jsonParseStringBody rest [] with
        | some (s, rest2) => some (Json.str s, rest2)
        | none => none
    | 't' :: 'r' :: 'u' :: 'e' :: rest => some (Json.bool true, rest)
    | 'f' :: 'a' :: 'l' :: 's' :: 'e' :: rest => some (Json.bool false, rest)
    | 'n' :: 'u' :: 'l' :: 'l' :: rest => some (Json.null, rest)
    | '-' :: rest =>
        let ds := rest.takeWhile Char.isDigit
        if ds.isEmpty then none
        else some (Json.num (-(digitsToNat ds : Int)), rest.drop ds.length)
    | c :: rest =>
        if c.isDigit then
          let ds := (c :: rest).takeWhile Char.isDigit
          some (Json.num (digitsToNat ds : Int), (c :: rest).drop ds.length)
        else none

/-- Parse the members of a JSON object (positioned at a key). -/
def jsonParseObj : Nat → List Char → List (String × Json) →
    Option (Json × List Char)
  | 0, _, _ => none
  | fuel + 1, cs, acc =>
    match jsonSkipWs cs with
    | '\x22' :: rest =>
        match jsonParseStringBody rest [] with
        | some (k, rest2) =>
            match jsonSkipWs rest2 with
            | ':' :: rest3 =>
                match jsonParseVal fuel rest3 with
                | some (v, rest4) =>
                    match jsonSkipWs rest4 with
                    | ',' :: rest5 => jsonParseObj fuel rest5 (dictInsert acc k v)
                    | '}' :: rest5 => some (Json.obj (dictInsert acc k v), rest5)
                    | _ => none
                | none => none
            | _ => none
        | none => none
    | _ => none

/-- Parse the elements of a JSON array (positioned at an element). -/
def jsonParseArr : Nat → List Char → List Json → Option (Json × List Char)
  | 0, _, _ => none
  | fuel + 1, cs, acc =>
    match jsonParseVal fuel cs with
    | some (v, rest) =>
        match jsonSkipWs rest with
        | ',' :: rest2 => jsonParseArr fuel rest2 (acc ++ [v])
        | ']' :: rest2 => some (Json.arr (acc ++ [v]), rest2)
        | _ => none
    | none => none

end

/-- Model of json.loads: parse one JSON document, requiring the whole
input to be consumed; any failure models the exception branch. -/
def jsonLoads (s : String) : Option Json :=
  match jsonParseVal (s.length + 1) s.data with
  | some (v, rest) => if (jsonSkipWs rest).isEmpty then some v else none
  | none => none

/-! ## Regex models

The sources use a handful of fixed regular expressions; each is
modelled by a direct decision procedure with Python re semantics
(leftmost match, greedy repetition) on the pattern in question. -/

/-- Does the whole char list match the tail regex
backslash-s* Ticket: backslash-s* # digits+ (anchored at the end)? -/
def ticketTailMatch (cs : List Char) : Bool :=
  let cs1 := cs.dropWhile isPySpace
  if ("Ticket:".toList).isPrefixOf cs1 then
    let cs2 := (cs1.drop 7).dropWhile isPySpace
    match cs2 with
    | '#' :: ds => ¬ ds.isEmpty && ds.all Char.isDigit
    | _ => false
  else false

/-- Model of re.sub(r0 where r0 is the pattern matching an optional
space run, the literal Ticket:, an optional space run, a hash sign and
a digit run anchored at the end of the string, replaced by the empty
string: cut the string at the leftmost position from which that
pattern matches to the end (email.py line 106). -/
def stripTicketSuffix (s : String) : String :=
  match (List.range (s.data.length + 1)).find?
      (fun i => ticketTailMatch (s.data.drop i)) with
  | some i => ⟨s.data.take i⟩
  | none => s

/-- Leftmost match of the pattern Ticket: backslash-s* # (digits+)
anywhere in the subject, returning the captured number
(email.py line 303).  The scan over start positions is re.search's
leftmost-match rule. -/
def ticketNumberAt (cs : List Char) : Option Nat :=
  if ("Ticket:".toList).isPrefixOf cs then
    let cs2 := (cs.drop 7).dropWhile isPySpace
    match cs2 with
    | '#' :: rest =>
        let ds := rest.takeWhile Char.isDigit
        if ds.isEmpty then none else some (digitsToNat ds)
    | _ => none
  else none

/-- re.search of the ticket-number pattern over a subject line. -/
def ticketFromSubject (subject : String) : Option Nat :=
  match (List.range (subject.data.length + 1)).find?
      (fun i => (ticketNumberAt (subject.data.drop i)).isSome) with
  | some i => ticketNumberAt (subject.data.drop i)
  | none => none

/-- Does the tail of a line match backslash-s+ wrote: with at least
one leading space?  Helper for the On-dots-wrote pattern. -/
def wroteAt (l : List Char) (j : Nat) : Bool :=
  ("wrote:".toList).isPrefixOf (l.drop j) && decide (3 ≤ j) &&
    (match l.get? (j - 1) with
     | some c => isPySpace c
     | none => false)

/-- Case-insensitive re.search of On backslash-s+ .+ backslash-s+
wrote: in one line (gmail.py pattern list, first entry).  A match
needs the literal On, then a space, then at least one character, then
a space, then the literal wrote: later in the line. -/
def matchOnWrote (line : String) : Bool :=
  let l := line.data.map Char.toLower
  (List.range l.length).any (fun i =>
    (['o', 'n']).isPrefixOf (l.drop i) &&
      (let rest := l.drop (i + 2)
       (match rest.head? with
        | some c => isPySpace c
        | none => false) &&
        (List.range (rest.length + 1)).any (fun j => wroteAt rest j)))

/-- Case-insensitive re.search of ---+ backslash-s* Original Message
backslash-s* ---+ in one line (gmail.py pattern list, second entry). -/
def origMsgAt (cs : List Char) : Bool :=
  let d1 := cs.takeWhile (fun c => c = '-')
  if d1.length < 3 then false
  else
    let r1 := (cs.drop d1.length).dropWhile isPySpace
    if ("original message".toList).isPrefixOf r1 then
      let r2 := (r1.drop 16).dropWhile isPySpace
      (r2.takeWhile (fun c => c = '-')).length ≥ 3
    else false

def matchOrigMsg (line : String) : Bool :=
  let l := line.data.map Char.toLower
  (List.range l.length).any (fun i => origMsgAt (l.drop i))

/-- Case-insensitive re.search of Sent from my (iPhone|Android) in one
line (gmail.py pattern list, third entry). -/
def matchSentFrom (line : String) : Bool :=
  containsSubCI line.data ("sent from my iphone".toList) ||
    containsSubCI line.data ("sent from my android".toList)

/-- One line stops the quote-stripping scan: it matches one of the
three patterns, or its stripped form starts with the quote marker
(gmail.py lines 188-196). -/
def stopLine (line : String) : Bool :=
  matchOnWrote line || matchOrigMsg line || matchSentFrom line ||
    (match pyStripList line.data with
     | '>' :: _ => true
     | _ => false)

/-- app/services/gmail.py strip_quoted_text: keep the lines before the
first stop line, join them with newlines and strip the result; an
empty (falsy) body yields the empty string. -/
def strip_quoted_text (body : String) : String :=
  if body = "" then ""
  else
    pyStrip (String.intercalate "\n"
      ((pySplitlines body).takeWhile (fun l => ! stopLine l)))

/-! ## Data model

Rows of the local store.  Timestamp and lock columns (submitted_at,
locked_by, locked_at, updated_at) are outside every claim checked here
and are omitted; created_at on email threads is kept as a logical
monotone counter because the threading queries order by it. -/

/-- app/models/submission.py Submission (a ticket). -/
structure Submission where
  id : Nat
  site_id : Nat
  form_id : Nat
  fluent_form_id : Nat
  status : String
  data : List (String × Json)
  submitter_name : Option String
  submitter_email : Option String
  subject : Option String
  message : Option String
  gmail_thread_id : Option String
  is_active : Bool

/-- app/models/email_thread.py EmailThread (one email message). -/
structure EmailThreadRow where
  id : Nat
  submission_id : Nat
  user_id : Option Nat
  direction : String
  subject : Option String
  body : String
  message_id : Option String
  to_email : Option String
  from_email : Option String
  status : Option String
  created_at : Nat
  gmail_message_id : Option String
  gmail_thread_id : Option String

/-- The dedup key of the storage-level uniqueness constraint
unique_site_form_entry on (site_id, form_id, fluent_form_id)
(app/models/submission.py lines 35-38). -/
def tripleOf (s : Submission) : Nat × Nat × Nat :=
  (s.site_id, s.form_id, s.fluent_form_id)

/-- The triples of a store, in row order. -/
def triples (store : List Submission) : List (Nat × Nat × Nat) :=
  store.map tripleOf

/-- The storage constraint: all (site, form, entry) triples pairwise
distinct. -/
def UniqueTriples (store : List Submission) : Prop :=
  (triples store).Nodup

/-! ## Synchronization engine (app/api/v1/sync.py) -/

/-- One raw entry as returned by the Fluent Forms submissions endpoint
(spec section 6: at least id, status, created_at, response).  Absent
dict keys are none; created_at is carried although the modelled claims
never read the parsed timestamp. -/
structure RawEntry where
  id : Nat
  status : Option String
  created_at : Option String
  response : Option String

/-- sync.py lines 153-158: parse the embedded response payload,
tolerating malformed JSON.  entry.get("response", "brace-brace")
defaults a missing key to the empty JSON object; a parse failure (the
json.JSONDecodeError / TypeError branch) yields the empty dict.  A
syntactically valid non-object document would make the subsequent
.items() call raise in Python; such payloads are outside the modelled
scope and are mapped to the empty dict as well. -/
def parsedContent (e : RawEntry) : List (String × Json) :=
  match jsonLoads (e.response.getD "\x7b\x7d") with
  | some (Json.obj fields) => fields
  | _ => []

/-- Python s.startswith("_"): the first character is an underscore. -/
def startsWithUnderscore (s : String) : Bool :=
  match s.data with
  | '_' :: _ => true
  | _ => false

/-- sync.py line 161: strip keys that start with an underscore. -/
def cleanData (pc : List (String × Json)) : List (String × Json) :=
  pc.filter (fun p => ! startsWithUnderscore p.1)

/-- Read a string-valued field of the parsed payload with a default;
non-string JSON values under the well-known extraction keys are
outside the modelled scope. -/
def fieldStrD (o : Option Json) (d : String) : String :=
  match o with
  | some (Json.str s) => s
  | _ => d

/-- sync.py lines 165-171: extract the submitter name, preferring the
nested names object, else the flat name field. -/
def extractSubmitterName (pc : List (String × Json)) : Option String :=
  match dictGet? pc "names" with
  | some (Json.obj names) =>
      some (pyStrip
        (fieldStrD (dictGet? names "first_name") "" ++ " " ++
          fieldStrD (dictGet? names "last_name") ""))
  | _ =>
      if dictHas pc "name" then
        match dictGet? pc "name" with
        | some (Json.str s) => some s
        | _ => none
      else none

/-- A string-valued field of the payload as an optional column value
(sync.py lines 173-175). -/
def extractStrField (pc : List (String × Json)) (k : String) : Option String :=
  match dictGet? pc k with
  | some (Json.str s) => some s
  | _ => none

/-- sync.py lines 180-187: the update branch of the upsert, writing
the mutable fields of an existing submission in place. -/
def applyEntry (e : RawEntry) (s : Submission) : Submission :=
  let pc := parsedContent e
  { s with
    status := e.status.getD "pending"
    data := cleanData pc
    submitter_name := extractSubmitterName pc
    submitter_email := extractStrField pc "email"
    subject := extractStrField pc "subject"
    message := extractStrField pc "message" }

/-- sync.py lines 188-203: the create branch of the upsert. -/
def newSubmission (siteId formId nextId : Nat) (e : RawEntry) : Submission :=
  let pc := parsedContent e
  { id := nextId
    site_id := siteId
    form_id := formId
    fluent_form_id := e.id
    status := e.status.getD "pending"
    data := cleanData pc
    submitter_name := extractSubmitterName pc
    submitter_email := extractStrField pc "email"
    subject := extractStrField pc "subject"
    message := extractStrField pc "message"
    gmail_thread_id := none
    is_active := true }

/-- The in-memory lookup test of sync.py line 178: does this store row
carry the entry's dedup key?  (The lookup dict is prefiltered to the
site at lines 127-131 and keyed by (form_id, fluent_form_id).) -/
def entryMatches (siteId formId : Nat) (e : RawEntry) (s : Submission) : Bool :=
  s.site_id = siteId && s.form_id = formId && s.fluent_form_id = e.id

/-- Sync accumulator: the submission store, the next primary key, and
the submissions_synced counter. -/
abbrev SyncAcc := List Submission × Nat × Nat

/-- sync.py lines 149-208: process one fetched entry.  An existing row
with the same (site, form, entry) triple is updated in place (under
the uniqueness constraint the lookup dict holds exactly one such row,
so the map touches at most one row), otherwise a new submission is
appended; either way submissions_synced is incremented.  The periodic
db.flush() at line 208 does not commit and has no observable effect on
the store. -/
def upsertOne (siteId formId : Nat) (acc : SyncAcc) (e : RawEntry) : SyncAcc :=
  let (store, nextId, count) := acc
  if store.any (entryMatches siteId formId e) then
    (store.map (fun s => if entryMatches siteId formId e s then applyEntry e s else s),
      nextId, count + 1)
  else
    (store ++ [newSubmission siteId formId nextId e], nextId + 1, count + 1)

/-- Fold of the entry loop over the fetched page. -/
def syncEntries (siteId formId : Nat) (entries : List RawEntry)
    (store : List Submission) (nextId : Nat) : SyncAcc :=
  entries.foldl (upsertOne siteId formId) (store, nextId, 0)

/-- The pagination semantics of the remote entries endpoint
(spec section 6: fetchEntries(formId, page, perPage)): one page of the
remote list. -/
def wpGetFormEntries (remote : List RawEntry) (page perPage : Nat) :
    List RawEntry :=
  (remote.drop ((page - 1) * perPage)).take perPage

/-- sync.py lines 133-209 after the contact form id is resolved: the
engine issues exactly one gateway call, get_form_entries(form_id,
per_page=50) with the default page=1 (wordpress.py line 113), and
upserts the entries of that single page.  There is no pagination
loop in the source. -/
def syncSiteCore (siteId formId : Nat) (remote : List RawEntry)
    (store : List Submission) (nextId : Nat) : SyncAcc :=
  syncEntries siteId formId (wpGetFormEntries remote 1 50) store nextId

/-! ## Application state for the email operations -/

/-- The mutable store the email endpoints and tasks touch: submissions
and email threads, plus primary-key and created_at counters. -/
structure AppState where
  submissions : List Submission
  emails : List EmailThreadRow
  nextSubId : Nat
  nextEmailId : Nat
  nextTime : Nat

/-- db.query(Submission).filter(Submission.id == sid).first(). -/
def findSub (subs : List Submission) (sid : Nat) : Option Submission :=
  subs.find? (fun s => s.id = sid)

/-- Mutate the first row satisfying the query predicate, as the
SQLAlchemy pattern query-first-then-setattr does. -/
def updateFirstWhere (q : Submission → Bool) (f : Submission → Submission) :
    List Submission → List Submission
  | [] => []
  | s :: rest =>
      if q s then f s :: rest else s :: updateFirstWhere q f rest

/-! ## Threading engine (app/api/v1/email.py create_email) -/

/-- The input schema EmailCreate (app/schemas/email.py). -/
structure EmailCreate where
  submission_id : Nat
  subject : Option String
  body : String
  direction : String

/-- Outcome of the external gmail_client.send_email call: the provider
either returns ids (message id, thread id, rewritten RFC 2822
Message-ID header) or reports failure. -/
inductive SendOutcome where
  | ok (gmailId : String) (threadId : Option String) (msgIdHeader : Option String)
  | err

/-- The send request the endpoint hands to the Gmail gateway (to,
subject and the threading headers); the rendered HTML body built by
the email_templates module flows only into this external call and is
not part of the stored state, so it is not carried here. -/
structure SendRequest where
  toAddr : String
  subject : String
  threadId : Option String
  inReplyTo : Option String
  references : Option String

/-- What create_email reports to the caller: 201 with the created row,
404, 422 (no submitter email), 422 (subject required for the first
email), 502 delivery failure (row persisted nevertheless), or 500 when
the commit itself fails (row not persisted). -/
inductive EmailResult where
  | created (row : EmailThreadRow)
  | notFound
  | noSubmitterEmail
  | subjectRequired
  | deliveryFailed (row : EmailThreadRow)
  | saveFailed

/-- email.py lines 92-110: subject of a follow-up.  The first thread
row of the submission with a non-NULL gmail_thread_id (ordered by
created_at, which is the list order here) provides the base subject;
one leading Re-prefix is cut, a trailing ticket suffix is cut, and the
result is re-wrapped.  If that row or its subject is falsy, fall back
to the submission subject or the fixed text. -/
def composeFollowupSubject (emails : List EmailThreadRow) (sub : Submission) :
    String :=
  let fallback := "Re: " ++ pyOrStr sub.subject "Your inquiry" ++
    " Ticket: #" ++ toString sub.id
  match emails.find? (fun e =>
      e.submission_id = sub.id && e.gmail_thread_id.isSome) with
  | some fe =>
      match fe.subject with
      | some s =>
          if s ≠ "" then
            let os : String :=
              if ("Re: ".toList).isPrefixOf s.data then ⟨s.data.drop 4⟩ else s
            "Re: " ++ stripTicketSuffix os ++ " Ticket: #" ++ toString sub.id
          else fallback
      | none => fallback
  | none => fallback

/-- A row carries a well-formed RFC 2822 message id: message_id is not
NULL and matches LIKE of a left angle bracket followed by anything
(email.py lines 116-117 and 126-127). -/
def wellFormedMsgId (e : EmailThreadRow) : Bool :=
  match e.message_id with
  | some m =>
      match m.data with
      | '<' :: _ => true
      | _ => false
  | none => false

/-- email.py lines 113-134: the In-Reply-To and References headers of
a follow-up, from the submission rows with well-formed message ids in
created_at order. -/
def threadingHeaders (emails : List EmailThreadRow) (sid : Nat) :
    Option String × Option String :=
  let anchored := emails.filter (fun e =>
    e.submission_id = sid && wellFormedMsgId e)
  let refsList := (anchored.map (fun e => e.message_id.getD "")).filter
    (fun m => m ≠ "")
  let references := if refsList.isEmpty then none
    else some (String.intercalate " " refsList)
  let inReplyTo := (anchored.getLast?).bind (fun e => e.message_id)
  (inReplyTo, references)

/-- app/api/v1/email.py create_email (lines 38-214).  Boundary inputs:
the acting user id, the configured sender address, the outcome of the
Gmail send, the uuid generated for a failed send, and whether the
final db.commit succeeds.  Returns the new state, the result signal
and the send request that was issued (none when no send happened).
The 500 path for an unconfigured Gmail client is outside the modelled
state and not represented. -/
def create_email (sender : String) (userId : Nat) (inp : EmailCreate)
    (outcome : SendOutcome) (uuid : String) (commitOk : Bool)
    (st : AppState) : AppState × EmailResult × Option SendRequest :=
  match findSub st.submissions inp.submission_id with
  | none => (st, EmailResult.notFound, none)
  | some sub =>
      if ! pyTruthy sub.submitter_email then
        (st, EmailResult.noSubmitterEmail, none)
      else
        let isFirst := ! pyTruthy sub.gmail_thread_id
        if isFirst && ! pyTruthy inp.subject then
          (st, EmailResult.subjectRequired, none)
        else
          let subject :=
            if isFirst then
              "Re: " ++ inp.subject.getD "" ++ " Ticket: #" ++ toString sub.id
            else composeFollowupSubject st.emails sub
          let headers :=
            if isFirst then (none, none)
            else threadingHeaders st.emails inp.submission_id
          let threadId := if isFirst then none else sub.gmail_thread_id
          let baseRow : EmailThreadRow :=
            { id := st.nextEmailId
              submission_id := inp.submission_id
              user_id := some userId
              direction := inp.direction
              subject := some subject
              body := inp.body
              message_id := none
              to_email := sub.submitter_email
              from_email := some sender
              status := none
              created_at := st.nextTime
              gmail_message_id := none
              gmail_thread_id := none }
          if inp.direction = "outbound" then
            let req : SendRequest :=
              { toAddr := sub.submitter_email.getD ""
                subject := subject
                threadId := threadId
                inReplyTo := headers.1
                references := headers.2 }
            match outcome with
            | SendOutcome.ok gmailId tid msgIdHeader =>
                let row := { baseRow with
                  status := some "sent"
                  gmail_message_id := some gmailId
                  gmail_thread_id := tid
                  message_id := msgIdHeader }
                if commitOk then
                  ({ st with
                      submissions := updateFirstWhere
                        (fun s => s.id = inp.submission_id)
                        (fun s =>
                          if pyTruthy s.gmail_thread_id then s
                          else { s with gmail_thread_id := tid })
                        st.submissions
                      emails := st.emails ++ [row]
                      nextEmailId := st.nextEmailId + 1
                      nextTime := st.nextTime + 1 },
                    EmailResult.created row, some req)
                else (st, EmailResult.saveFailed, some req)
            | SendOutcome.err =>
                let row := { baseRow with
                  status := some "failed"
                  message_id := some uuid }
                if commitOk then
                  ({ st with
                      emails := st.emails ++ [row]
                      nextEmailId := st.nextEmailId + 1
                      nextTime := st.nextTime + 1 },
                    EmailResult.deliveryFailed row, some req)
                else (st, EmailResult.saveFailed, some req)
          else
            if commitOk then
              ({ st with
                  emails := st.emails ++ [baseRow]
                  nextEmailId := st.nextEmailId + 1
                  nextTime := st.nextTime + 1 },
                EmailResult.created baseRow, none)
            else (st, EmailResult.saveFailed, none)

/-! ## Inbound mailbox messages and body extraction -/

/-- One unread message as listed by the mailbox (id and threadId). -/
structure MsgBrief where
  id : Option String
  threadId : Option String

/-- A fetched full message (gmail.py get_message data). -/
structure MsgData where
  threadId : Option String
  message_id_header : Option String
  subject : Option String
  fromHeader : Option String
  body : String

/-- Outcome of the external get_message call. -/
inductive FetchResult where
  | ok (d : MsgData)
  | err

/-- Lowercased string (Python str.lower on the ASCII range used). -/
def lowerStr (s : String) : String :=
  ⟨s.data.map Char.toLower⟩

/-- email.py lines 283-286 / gmail_tasks.py lines 83-87: extract the
address from a Name-angle-bracket-address header.  Python
split("<")[1] is the text after the first left angle up to the next
one, and split(">")[0] cuts it at the first right angle. -/
def extractAddr (h : String) : String :=
  if h.data.contains '<' && h.data.contains '>' then
    ⟨((((h.data.dropWhile (fun c => c ≠ '<')).drop 1).takeWhile
        (fun c => c ≠ '<')).takeWhile (fun c => c ≠ '>'))⟩
  else h

/-- email.py line 317: the body looks like HTML when its stripped form
starts with a tag opener, or it contains the div marker
(case-sensitive, as in the source), or its lowercase form contains the
html marker. -/
def isHtmlBody (raw : String) : Bool :=
  (match pyStripList raw.data with
   | '<' :: _ => true
   | _ => false) ||
  pyContains raw "<div" ||
  containsSub (raw.data.map Char.toLower) ("<html".toList)

/-- After the literal br (case-insensitive) inside a tag: consume
optional spaces, an optional slash and the closing angle, per the
pattern br backslash-s* slash? right-angle. -/
def brTail? (cs : List Char) : Option (List Char) :=
  let cs1 := cs.dropWhile isPySpace
  match cs1 with
  | '/' :: '>' :: rest => some rest
  | '>' :: rest => some rest
  | _ => none

/-- email.py line 325: replace every br tag by a newline
(case-insensitive). -/
def subBr : Nat → List Char → List Char
  | 0, cs => cs
  | _ + 1, [] => []
  | fuel + 1, c :: cs =>
      if c = '<' then
        match cs with
        | b :: r :: rest =>
            if b.toLower = 'b' && r.toLower = 'r' then
              match brTail? rest with
              | some rem => '\n' :: subBr fuel rem
              | none => c :: subBr fuel cs
            else c :: subBr fuel cs
        | _ => c :: subBr fuel cs
      else c :: subBr fuel cs

/-- Case-insensitive literal substitution (re.sub with IGNORECASE on a
pattern without metacharacters), used for the closing div and closing
p tags at email.py lines 326-327. -/
def subLitCI : Nat → List Char → List Char → List Char → List Char
  | 0, _, _, cs => cs
  | _ + 1, _, _, [] => []
  | fuel + 1, pat, rep, c :: cs =>
      if pat.isPrefixOf ((c :: cs).map Char.toLower) then
        rep ++ subLitCI fuel pat rep ((c :: cs).drop pat.length)
      else c :: subLitCI fuel pat rep cs

/-- Does a gmail-quote container open at this position?  Pattern
left-angle div [^>]* class="gmail_quote [^>]* right-angle with
IGNORECASE: after the div opener, the characters before the first
right angle must contain the class marker (email.py line 328). -/
def gmailQuoteAt (cs : List Char) : Bool :=
  ((cs.take 4).map Char.toLower = "<div".toList) &&
    (let rest := cs.drop 4
     let span := rest.takeWhile (fun c => c ≠ '>')
     decide (span.length < rest.length) &&
       containsSubCI span ("class=\x22gmail_quote".toList))

/-- email.py line 328: the DOTALL re.sub erases everything from the
first gmail-quote container opener to the end. -/
def truncGmailQuote : List Char → List Char
  | [] => []
  | c :: rest =>
      if gmailQuoteAt (c :: rest) then []
      else c :: truncGmailQuote rest

/-- email.py line 330, re.sub of left-angle [^>]+ right-angle with the
empty string: drop every maximal tag-shaped span.  The scan keeps a
pending buffer once a left angle is open; a closing angle with a
non-empty buffer erases the span, a closing angle right after the
opener does not match the pattern and is kept, and an unclosed opener
is restored at the end. -/
def stripTagsAux : List Char → Option (List Char) → List Char
  | [], none => []
  | [], some buf => '<' :: buf.reverse
  | c :: rest, none =>
      if c = '<' then stripTagsAux rest (some [])
      else c :: stripTagsAux rest none
  | c :: rest, some buf =>
      if c = '>' then
        if buf.isEmpty then '<' :: '>' :: stripTagsAux rest none
        else stripTagsAux rest none
      else stripTagsAux rest (some (c :: buf))

/-- Replace every occurrence of a literal (Python str.replace), for
the entity decoding at email.py line 332. -/
def replaceList : Nat → List Char → List Char → List Char → List Char
  | 0, _, _, cs => cs
  | _ + 1, _, _, [] => []
  | fuel + 1, pat, rep, c :: cs =>
      if pat.isPrefixOf (c :: cs) then
        rep ++ replaceList fuel pat rep ((c :: cs).drop pat.length)
      else c :: replaceList fuel pat rep cs

/-- email.py line 334: collapse every run of three or more newlines to
exactly two. -/
def collapseNL : Nat → List Char → List Char
  | 0, cs => cs
  | _ + 1, [] => []
  | fuel + 1, c :: rest =>
      if c = '\n' then
        let run := rest.takeWhile (fun c2 => c2 = '\n')
        (if run.length + 1 ≥ 3 then ['\n', '\n']
         else List.replicate (run.length + 1) '\n') ++
          collapseNL fuel (rest.drop run.length)
      else c :: collapseNL fuel rest

/-- email.py lines 321-335: the HTML branch of the inbound body
extraction — br and closing block tags to newlines, truncate at a
gmail-quote container, strip remaining tags, decode the four common
entities, collapse blank-line runs. -/
def htmlToText (raw : String) : String :=
  let t1 := subBr (raw.data.length + 1) raw.data
  let t2 := subLitCI (t1.length + 1) ("</div>".toList) ['\n'] t1
  let t3 := subLitCI (t2.length + 1) ("</p>".toList) ['\n'] t2
  let t4 := truncGmailQuote t3
  let t5 := stripTagsAux t4 none
  let t6 := replaceList (t5.length + 1) ("&nbsp;".toList) [' '] t5
  let t7 := replaceList (t6.length + 1) ("&lt;".toList) ['<'] t6
  let t8 := replaceList (t7.length + 1) ("&gt;".toList) ['>'] t7
  let t9 := replaceList (t8.length + 1) ("&amp;".toList) ['&'] t8
  ⟨collapseNL (t9.length + 1) t9⟩

/-- email.py lines 316-343: the body stored for an inbound reply.  The
HTML branch converts to text first; quote stripping is applied either
way; the raw body is used as fallback only when stripping left nothing
and the source was not HTML. -/
def computeFinalBody (raw : String) : String :=
  let isHtml := isHtmlBody raw
  let clean :=
    if isHtml then strip_quoted_text (htmlToText raw)
    else strip_quoted_text raw
  if pyStrip clean ≠ "" then clean
  else if ! isHtml then raw else ""

/-! ## Inbound reply matchers -/

/-- app/api/v1/email.py sync_gmail_inbox, lines 257-370: processing of
one listed unread message.  Returns the new state and the increments
of the processed and matched counters.  mark_as_read is an external
gateway effect with no trace in the store. -/
def syncGmailStep (sender : String) (st : AppState)
    (brief : MsgBrief) (fetched : FetchResult) : AppState × Nat × Nat :=
  if ! pyTruthy brief.id then (st, 0, 0)
  else
    let msgId := brief.id.getD ""
    if st.emails.any (fun e => e.gmail_message_id = some msgId) then (st, 1, 0)
    else
      match fetched with
      | FetchResult.err => (st, 1, 0)
      | FetchResult.ok d =>
          let fromEmail := extractAddr (d.fromHeader.getD "")
          if lowerStr fromEmail = lowerStr sender then (st, 1, 0)
          else
            let primary : Option ((Submission → Bool) × Submission) :=
              if pyTruthy brief.threadId then
                match st.submissions.find?
                    (fun s => s.gmail_thread_id = brief.threadId) with
                | some s =>
                    some ((fun s2 => s2.gmail_thread_id = brief.threadId), s)
                | none => none
              else none
            let matched : Option ((Submission → Bool) × Submission) :=
              match primary with
              | some r => some r
              | none =>
                  match ticketFromSubject (d.subject.getD "") with
                  | some n =>
                      match findSub st.submissions n with
                      | some s => some ((fun s2 => s2.id = n), s)
                      | none => none
                  | none => none
            match matched with
            | none => (st, 1, 0)
            | some (q, sub) =>
                let row : EmailThreadRow :=
                  { id := st.nextEmailId
                    submission_id := sub.id
                    user_id := none
                    direction := "inbound"
                    subject := d.subject
                    body := computeFinalBody d.body
                    message_id := d.message_id_header
                    to_email := some sender
                    from_email := some fromEmail
                    status := some "received"
                    created_at := st.nextTime
                    gmail_message_id := some msgId
                    gmail_thread_id := brief.threadId }
                ({ st with
                    emails := st.emails ++ [row]
                    submissions := updateFirstWhere q
                      (fun s => { s with status := "in_progress" })
                      st.submissions
                    nextEmailId := st.nextEmailId + 1
                    nextTime := st.nextTime + 1 },
                  1, 1)

/-- The whole sync_gmail_inbox batch: fold over the listed unread
messages paired with their fetch results; the single commit at the end
is the identity on the accumulated state. -/
def syncGmailInbox (sender : String) (st : AppState)
    (msgs : List (MsgBrief × FetchResult)) : AppState × Nat × Nat :=
  msgs.foldl
    (fun acc m =>
      let r := syncGmailStep sender acc.1 m.1 m.2
      (r.1, acc.2.1 + r.2.1, acc.2.2 + r.2.2))
    (st, 0, 0)

/-- app/tasks/gmail_tasks.py poll_gmail_replies_task, lines 47-127:
processing of one listed unread message by the scheduled poll.  The
task matches solely by thread id: a message without a truthy threadId
is skipped before it is even counted, and there is no subject
fallback.  The dedup check compares gmail_message_id with the possibly
missing message id (SQL IS NULL semantics when it is missing). -/
def pollGmailStep (sender : String) (st : AppState)
    (brief : MsgBrief) (fetched : FetchResult) : AppState × Nat × Nat :=
  if ! pyTruthy brief.threadId then (st, 0, 0)
  else
    match st.submissions.find?
        (fun s => s.gmail_thread_id = brief.threadId) with
    | none => (st, 1, 0)
    | some _ =>
        if st.emails.any (fun e => e.gmail_message_id = brief.id) then
          (st, 1, 0)
        else
          match fetched with
          | FetchResult.err => (st, 1, 0)
          | FetchResult.ok d =>
              let fromEmail := extractAddr (d.fromHeader.getD "")
              if lowerStr fromEmail = lowerStr sender then (st, 1, 0)
              else
                let row : EmailThreadRow :=
                  { id := st.nextEmailId
                    submission_id :=
                      ((st.submissions.find?
                          (fun s => s.gmail_thread_id = brief.threadId)).map
                        (fun s => s.id)).getD 0
                    user_id := none
                    direction := "inbound"
                    subject := d.subject
                    body := strip_quoted_text d.body
                    message_id := d.message_id_header
                    to_email := some sender
                    from_email := some fromEmail
                    status := some "received"
                    created_at := st.nextTime
                    gmail_message_id := brief.id
                    gmail_thread_id := brief.threadId }
                ({ st with
                    emails := st.emails ++ [row]
                    submissions := updateFirstWhere
                      (fun s => s.gmail_thread_id = brief.threadId)
                      (fun s => { s with status := "in_progress" })
                      st.submissions
                    nextEmailId := st.nextEmailId + 1
                    nextTime := st.nextTime + 1 },
                  1, 1)

/-- The whole poll_gmail_replies_task batch. -/
def pollGmailReplies (sender : String) (st : AppState)
    (msgs : List (MsgBrief × FetchResult)) : AppState × Nat × Nat :=
  msgs.foldl
    (fun acc m =>
      let r := pollGmailStep sender acc.1 m.1 m.2
      (r.1, acc.2.1 + r.2.1, acc.2.2 + r.2.2))
    (st, 0, 0)

/-! ## The modelled operations on the store -/

/-- Every modelled operation that can touch Submission rows: an
outbound (or recorded) email via create_email, one inbound message of
the on-demand Gmail sync, one inbound message of the scheduled poll,
and a site sync. -/
inductive Operation where
  | sendEmail (userId : Nat) (inp : EmailCreate) (outcome : SendOutcome)
      (uuid : String) (commitOk : Bool)
  | inboundSyncMsg (brief : MsgBrief) (fetched : FetchResult)
  | pollMsg (brief : MsgBrief) (fetched : FetchResult)
  | siteSync (siteId formId : Nat) (remote : List RawEntry)

/-- Apply one operation to the state. -/
def applyOp (sender : String) (st : AppState) : Operation → AppState
  | Operation.sendEmail userId inp outcome uuid commitOk =>
      (create_email sender userId inp outcome uuid commitOk st).1
  | Operation.inboundSyncMsg brief fetched =>
      (syncGmailStep sender st brief fetched).1
  | Operation.pollMsg brief fetched =>
      (pollGmailStep sender st brief fetched).1
  | Operation.siteSync siteId formId remote =>
      let r := syncSiteCore siteId formId remote st.submissions st.nextSubId
      { st with submissions := r.1, nextSubId := r.2.1 }

/-- Apply a sequence of operations. -/
def applyOps (sender : String) (st : AppState) (ops : List Operation) :
    AppState :=
  ops.foldl (applyOp sender) st

/-! ## Concrete fixtures used by witnesses and counterexamples -/

/-- A ticket with no established mailbox thread, as the sync engine
creates it. -/
def subFix : Submission :=
  { id := 42
    site_id := 1
    form_id := 7
    fluent_form_id := 3
    status := "new"
    data := []
    submitter_name := some "Bob"
    submitter_email := some "bob@x.com"
    subject := some "Help me"
    message := some "original question"
    gmail_thread_id := none
    is_active := true }

/-- A store holding just that ticket. -/
def stFix : AppState :=
  { submissions := [subFix]
    emails := []
    nextSubId := 43
    nextEmailId := 1
    nextTime := 1 }

/-- An unread message whose thread id matches no submission. -/
def briefFix : MsgBrief := { id := some "m1", threadId := some "T999" }

/-- Its fetched payload: the subject carries the ticket number 42. -/
def dataFix : MsgData :=
  { threadId := some "T999"
    message_id_header := some "<mid@customer>"
    subject := some "Re: Help me Ticket: #42"
    fromHeader := some "Bob <bob@x.com>"
    body := "Thanks!\nOn Mon, Jan 1 wrote:\n> old content" }

/-- The configured outbound sender address. -/
def senderFix : String := "admin@x.com"

/-- A remote entry whose payload parses and extracts cleanly. -/
def entryOk (i : Nat) : RawEntry :=
  { id := i
    status := some "read"
    created_at := some "2024-01-01 10:00:00"
    response := some "\x7b\x22name\x22: \x22Alice\x22, \x22email\x22: \x22alice@x.com\x22, \x22subject\x22: \x22Hi\x22, \x22message\x22: \x22Hello\x22, \x22_wp_http_referer\x22: \x22/contact\x22\x7d" }

/-- A remote entry whose embedded payload is not valid JSON. -/
def entryBad (i : Nat) : RawEntry :=
  { id := i
    status := some "unread"
    created_at := some "2024-01-02 09:30:00"
    response := some "not valid json \x7b\x7b" }

/-- A minimal remote entry (no payload at all). -/
def entryBare (i : Nat) : RawEntry :=
  { id := i
    status := none
    created_at := none
    response := none }

/-- Fifty-one bare remote entries with ids 1 to 51: one more than the
fetch window of the sync engine. -/
def remote51 : List RawEntry := (List.range 51).map (fun i => entryBare (i + 1))

/-- Five remote entries, the third of which has a malformed payload. -/
def remote5 : List RawEntry :=
  [entryOk 1, entryOk 2, entryBad 3, entryOk 4, entryOk 5]

/-! ## Claim theorems -/

/-- C7: strip_quoted_text scans line by line and discards everything
from the first stop line on: the claimed input yields exactly
Thanks-bang, and each of the four stop categories (an On-dots-wrote
line, a dashed Original Message separator, a Sent-from-my signature,
a line beginning with the quote marker) cuts the body there. -/
theorem strip_quoted_text_stops_at_first_quote_line :
    strip_quoted_text "Thanks!\nOn Mon, Jan 1 wrote:\n> old content" = "Thanks!" ∧
    strip_quoted_text "Keep one\nKeep two\nOn Tue, Feb 2 at 9:00 AM X wrote:\nold\nolder" = "Keep one\nKeep two" ∧
    strip_quoted_text "Keep\n----- Original Message -----\nold" = "Keep" ∧
    strip_quoted_text "Keep\nSent from my iPhone" = "Keep" ∧
    strip_quoted_text "Keep\nSent from my Android" = "Keep" ∧
    strip_quoted_text "Keep\n  > quoted\nafter the quote" = "Keep" :=
  ⟨rfl, rfl, rfl, rfl, rfl, rfl⟩

set_option maxRecDepth 100000 in
/-- C1: claimed page-by-page fetching does not happen.  The sync core
issues exactly one get_form_entries call with page 1 and page size 50
(sync.py line 138 with the wordpress.py line 113 default page), so a
site with 51 remote entries syncs only the first 50: submissions_synced
is 50, the store holds 50 rows, and the entry with remote id 51 is
never upserted, although the remote set has 51 entries. -/
theorem syncSiteCore_fetches_single_page_of_50 :
    (syncSiteCore 1 7 remote51 [] 1).2.2 = 50 ∧
    (syncSiteCore 1 7 remote51 [] 1).1.length = 50 ∧
    ((syncSiteCore 1 7 remote51 [] 1).1.all
      (fun s => s.fluent_form_id ≠ 51)) = true ∧
    remote51.length = 51 :=
  ⟨rfl, rfl, rfl, rfl⟩

set_option maxRecDepth 100000 in
/-- C9: a malformed embedded payload degrades to an empty payload and
the entry is still upserted and counted: among the five fetched
entries the third has an unparsable response, yet the sync counts all
five, stores five rows, stores the malformed one with empty data and
null extracted fields (with its remote status still applied), and
extracts the valid ones normally. -/
theorem syncSiteCore_tolerates_malformed_payload :
    (syncSiteCore 1 7 remote5 [] 1).2.2 = 5 ∧
    (syncSiteCore 1 7 remote5 [] 1).1.length = 5 ∧
    ((syncSiteCore 1 7 remote5 [] 1).1.map
      (fun s => (s.fluent_form_id, s.data.isEmpty, s.submitter_name,
        s.submitter_email, s.subject, s.message, s.status))) =
      [(1, false, some "Alice", some "alice@x.com", some "Hi", some "Hello", "read"),
       (2, false, some "Alice", some "alice@x.com", some "Hi", some "Hello", "read"),
       (3, true, none, none, none, none, "unread"),
       (4, false, some "Alice", some "alice@x.com", some "Hi", some "Hello", "read"),
       (5, false, some "Alice", some "alice@x.com", some "Hi", some "Hello", "read")] :=
  ⟨rfl, rfl, rfl⟩

/-! ## Helper lemmas shared by several claims -/

/-- A query-then-mutate on the first matching row commutes with the
query, when the mutation does not change the queried field. -/
theorem find?_updateFirstWhere (q : Submission → Bool) (f : Submission → Submission)
    (hq : ∀ x, q (f x) = q x) (l : List Submission) :
    (updateFirstWhere q f l).find? q = (l.find? q).map f := by
  induction l with
  | nil => rfl
  | cons s rest ih =>
      by_cases h : q s = true
      · simp [updateFirstWhere, h, List.find?_cons, hq]
      · have hs : q s = false := by simpa using h
        simp [updateFirstWhere, hs, List.find?_cons, ih]

/-- When the message carries an id that is not yet stored, comes from
a foreign sender, its thread id matches no submission, and its subject
carries the ticket number of an existing submission, sync_gmail_inbox
appends the inbound row and flips that submission to in_progress —
and does nothing else. -/
theorem syncGmailStep_fallback_eq
    (sender : String) (st : AppState) (brief : MsgBrief) (d : MsgData)
    (m : String) (n : Nat) (sub : Submission)
    (hm : brief.id = some m) (hm2 : m ≠ "")
    (hdup : st.emails.any (fun e => e.gmail_message_id = some m) = false)
    (hfrom : lowerStr (extractAddr (d.fromHeader.getD "")) ≠ lowerStr sender)
    (hprim : st.submissions.find? (fun s => s.gmail_thread_id = brief.threadId) = none)
    (htick : ticketFromSubject (d.subject.getD "") = some n)
    (hsub : findSub st.submissions n = some sub) :
    syncGmailStep sender st brief (FetchResult.ok d) =
      ({ st with
          emails := st.emails ++
            [{ id := st.nextEmailId
               submission_id := sub.id
               user_id := none
               direction := "inbound"
               subject := d.subject
               body := computeFinalBody d.body
               message_id := d.message_id_header
               to_email := some sender
               from_email := some (extractAddr (d.fromHeader.getD ""))
               status := some "received"
               created_at := st.nextTime
               gmail_message_id := some m
               gmail_thread_id := brief.threadId }]
          submissions := updateFirstWhere (fun s => s.id = n)
            (fun s => { s with status := "in_progress" }) st.submissions
          nextEmailId := st.nextEmailId + 1
          nextTime := st.nextTime + 1 }, 1, 1) := by
  have hpt : pyTruthy (some m) = true := by simp [pyTruthy, hm2]
  have hcase : ∀ b : Bool,
      (if b = true then (none : Option ((Submission → Bool) × Submission))
       else none) = none := by
    intro b; cases b <;> rfl
  unfold syncGmailStep
  rw [hm, hpt]
  simp only [Bool.not_true, Bool.false_eq_true, if_false, Option.getD_some]
  rw [hdup]
  simp only [Bool.false_eq_true, if_false]
  rw [if_neg hfrom, hprim]
  dsimp only
  rw [htick]
  dsimp only
  rw [hcase (pyTruthy brief.threadId)]
  dsimp only
  rw [hsub]

/-- The scheduled poll with no thread-id match leaves the store
untouched, whatever the message subject says: it has no subject
fallback, and it skips messages without a truthy thread id before
counting them. -/
theorem pollGmailStep_no_thread_match
    (sender : String) (st : AppState) (brief : MsgBrief) (fetched : FetchResult)
    (hprim : st.submissions.find? (fun s => s.gmail_thread_id = brief.threadId) = none) :
    pollGmailStep sender st brief fetched =
      (st, if pyTruthy brief.threadId = true then 1 else 0, 0) := by
  unfold pollGmailStep
  by_cases hb : pyTruthy brief.threadId = true
  · rw [hb]
    simp only [Bool.not_true, Bool.false_eq_true, if_false, if_pos hb]
    rw [hprim]
    rfl
  · have hb' : pyTruthy brief.threadId = false := by simpa using hb
    rw [hb']
    simp only [Bool.not_false, if_true, Bool.false_eq_true, if_false]

/-- C4 counterexample: the inbound matcher matches the message to
ticket 42 through the subject fallback (the row lands on submission
42 and carries the native thread id T999), yet the ticket's
gmailThreadId is NOT established from it: it stays NULL, not T999 as
the claim asserts. -/
theorem inbound_fallback_never_sets_ticket_thread_cex :
    ((syncGmailStep senderFix stFix briefFix (FetchResult.ok dataFix)).1.emails.map
      (fun e => (e.submission_id, e.gmail_thread_id))) = [(42, some "T999")] ∧
    (findSub (syncGmailStep senderFix stFix briefFix (FetchResult.ok dataFix)).1.submissions 42).map
      (fun s => s.gmail_thread_id) = some none ∧
    (some none : Option (Option String)) ≠ some (some "T999") :=
  ⟨rfl, rfl, by decide⟩

/-- C4 as amended: when the inbound matcher matches a message through
the subject ticket-number fallback to a ticket whose gmailThreadId is
still null, it records the native thread id only on the stored inbound
EmailThread row and flips the ticket to in_progress; the ticket's own
gmailThreadId remains null (only a successful outbound send sets it,
email.py lines 181-183). -/
theorem inbound_fallback_records_thread_on_row_only
    (sender : String) (st : AppState) (brief : MsgBrief) (d : MsgData)
    (m : String) (n : Nat) (sub : Submission)
    (hm : brief.id = some m) (hm2 : m ≠ "")
    (hdup : st.emails.any (fun e => e.gmail_message_id = some m) = false)
    (hfrom : lowerStr (extractAddr (d.fromHeader.getD "")) ≠ lowerStr sender)
    (hprim : st.submissions.find? (fun s => s.gmail_thread_id = brief.threadId) = none)
    (htick : ticketFromSubject (d.subject.getD "") = some n)
    (hsub : findSub st.submissions n = some sub)
    (hthread : sub.gmail_thread_id = none) :
    ∃ row,
      (syncGmailStep sender st brief (FetchResult.ok d)).1.emails =
        st.emails ++ [row] ∧
      row.submission_id = sub.id ∧
      row.gmail_thread_id = brief.threadId ∧
      findSub (syncGmailStep sender st brief (FetchResult.ok d)).1.submissions n =
        some { sub with status := "in_progress" } ∧
      (findSub (syncGmailStep sender st brief (FetchResult.ok d)).1.submissions n).map
        (fun s => s.gmail_thread_id) = some none := by
  have heq := syncGmailStep_fallback_eq sender st brief d m n sub hm hm2 hdup hfrom hprim htick hsub
  have hfind : findSub (syncGmailStep sender st brief (FetchResult.ok d)).1.submissions n =
      some { sub with status := "in_progress" } := by
    rw [heq]
    unfold findSub
    rw [find?_updateFirstWhere (fun s => decide (s.id = n))
      (fun s => { s with status := "in_progress" }) (fun x => rfl) st.submissions]
    unfold findSub at hsub
    rw [hsub]
    rfl
  refine ⟨_, by rw [heq], rfl, rfl, hfind, ?_⟩
  rw [hfind]
  simp [hthread]

/-- C4 witness: the amended theorem applied to the concrete fixture
(message m1 in thread T999 with subject ticket number 42, store
holding ticket 42 with a null thread id). -/
theorem inbound_fallback_records_thread_on_row_only_witness :
    (briefFix.id = some "m1" ∧
      ticketFromSubject (dataFix.subject.getD "") = some 42 ∧
      findSub stFix.submissions 42 = some subFix ∧
      subFix.gmail_thread_id = none) ∧
    (∃ row,
      (syncGmailStep senderFix stFix briefFix (FetchResult.ok dataFix)).1.emails =
        stFix.emails ++ [row] ∧
      row.submission_id = subFix.id ∧
      row.gmail_thread_id = briefFix.threadId ∧
      findSub (syncGmailStep senderFix stFix briefFix (FetchResult.ok dataFix)).1.submissions 42 =
        some { subFix with status := "in_progress" } ∧
      (findSub (syncGmailStep senderFix stFix briefFix (FetchResult.ok dataFix)).1.submissions 42).map
        (fun s => s.gmail_thread_id) = some none) :=
  ⟨⟨rfl, rfl, rfl, rfl⟩,
    inbound_fallback_records_thread_on_row_only senderFix stFix briefFix dataFix
      "m1" 42 subFix rfl (by decide) rfl (by decide) rfl rfl rfl rfl⟩

/-- C6 counterexample: the same message (no thread-id match, subject
carrying Ticket number 42) is processed but NOT attached by the
scheduled poll task — no row is created and matched stays 0 — while
the on-demand sync endpoint does attach it to submission 42.  The
claimed two-tier matching therefore does not hold for the scheduled
run. -/
theorem scheduled_poll_lacks_subject_fallback_cex :
    (pollGmailReplies senderFix stFix [(briefFix, FetchResult.ok dataFix)]).1.emails = [] ∧
    (pollGmailReplies senderFix stFix [(briefFix, FetchResult.ok dataFix)]).2.2 = 0 ∧
    (pollGmailReplies senderFix stFix [(briefFix, FetchResult.ok dataFix)]).2.1 = 1 ∧
    ((syncGmailInbox senderFix stFix [(briefFix, FetchResult.ok dataFix)]).1.emails.map
      (fun e => e.submission_id)) = [42] ∧
    (pollGmailReplies senderFix stFix [(briefFix, FetchResult.ok dataFix)]).1.submissions =
      stFix.submissions :=
  ⟨rfl, rfl, rfl, rfl, rfl⟩

/-- C6 as amended: two-tier matching is applied by the on-demand run
only.  For the on-demand sync, a message whose thread id matches no
Submission but whose subject yields ticket number n through the
Ticket-number pattern is attached to the Submission with id n (row
appended, ticket flipped to in_progress).  The scheduled poll task
matches solely by native thread id: with no thread-id match it leaves
the store untouched regardless of the subject. -/
theorem two_tier_matching_on_demand_only
    (sender : String) (st : AppState) (brief : MsgBrief) (d : MsgData)
    (m : String) (n : Nat) (sub : Submission)
    (hm : brief.id = some m) (hm2 : m ≠ "")
    (hdup : st.emails.any (fun e => e.gmail_message_id = some m) = false)
    (hfrom : lowerStr (extractAddr (d.fromHeader.getD "")) ≠ lowerStr sender)
    (hprim : st.submissions.find? (fun s => s.gmail_thread_id = brief.threadId) = none)
    (htick : ticketFromSubject (d.subject.getD "") = some n)
    (hsub : findSub st.submissions n = some sub) :
    (sub.id = n ∧
      (syncGmailStep sender st brief (FetchResult.ok d)).2.2 = 1 ∧
      ∃ row,
        (syncGmailStep sender st brief (FetchResult.ok d)).1.emails =
          st.emails ++ [row] ∧
        row.submission_id = n ∧
        findSub (syncGmailStep sender st brief (FetchResult.ok d)).1.submissions n =
          some { sub with status := "in_progress" }) ∧
    (∀ (st2 : AppState) (brief2 : MsgBrief) (fetched2 : FetchResult),
      st2.submissions.find? (fun s => s.gmail_thread_id = brief2.threadId) = none →
      pollGmailStep sender st2 brief2 fetched2 =
        (st2, if pyTruthy brief2.threadId = true then 1 else 0, 0)) := by
  have hid : sub.id = n := by
    have := List.find?_some hsub
    simpa using this
  have heq := syncGmailStep_fallback_eq sender st brief d m n sub hm hm2 hdup hfrom hprim htick hsub
  have hfind : findSub (syncGmailStep sender st brief (FetchResult.ok d)).1.submissions n =
      some { sub with status := "in_progress" } := by
    rw [heq]
    unfold findSub
    rw [find?_updateFirstWhere (fun s => decide (s.id = n))
      (fun s => { s with status := "in_progress" }) (fun x => rfl) st.submissions]
    unfold findSub at hsub
    rw [hsub]
    rfl
  refine ⟨⟨hid, by rw [heq], _, by rw [heq], hid, hfind⟩, ?_⟩
  intro st2 brief2 fetched2 hprim2
  exact pollGmailStep_no_thread_match sender st2 brief2 fetched2 hprim2

/-- C6 witness: the amended theorem applied to the concrete fixture. -/
theorem two_tier_matching_on_demand_only_witness :
    (briefFix.id = some "m1" ∧
      ticketFromSubject (dataFix.subject.getD "") = some 42 ∧
      findSub stFix.submissions 42 = some subFix) ∧
    ((subFix.id = 42 ∧
      (syncGmailStep senderFix stFix briefFix (FetchResult.ok dataFix)).2.2 = 1 ∧
      ∃ row,
        (syncGmailStep senderFix stFix briefFix (FetchResult.ok dataFix)).1.emails =
          stFix.emails ++ [row] ∧
        row.submission_id = 42 ∧
        findSub (syncGmailStep senderFix stFix briefFix (FetchResult.ok dataFix)).1.submissions 42 =
          some { subFix with status := "in_progress" }) ∧
    (∀ (st2 : AppState) (brief2 : MsgBrief) (fetched2 : FetchResult),
      st2.submissions.find? (fun s => s.gmail_thread_id = brief2.threadId) = none →
      pollGmailStep senderFix st2 brief2 fetched2 =
        (st2, if pyTruthy brief2.threadId = true then 1 else 0, 0))) :=
  ⟨⟨rfl, rfl, rfl⟩,
    two_tier_matching_on_demand_only senderFix stFix briefFix dataFix
      "m1" 42 subFix rfl (by decide) rfl (by decide) rfl rfl rfl⟩

/-- C5: follow-up subject idempotence.  For any ticket with id 10 and
any email history whose first row with a non-null native thread id has
subject Re: Help me Ticket: #10, the follow-up subject derivation of
email.py lines 92-110 strips the one Re-prefix and the one trailing
ticket suffix and re-wraps, yielding exactly the same subject again —
no stacked Re-prefixes and no duplicated ticket suffix, however many
follow-ups precede. -/
theorem composeFollowupSubject_idempotent
    (emails : List EmailThreadRow) (sub : Submission) (fe : EmailThreadRow)
    (hid : sub.id = 10)
    (hfe : emails.find? (fun e => e.submission_id = sub.id && e.gmail_thread_id.isSome) = some fe)
    (hsubj : fe.subject = some "Re: Help me Ticket: #10") :
    composeFollowupSubject emails sub = "Re: Help me Ticket: #10" := by
  unfold composeFollowupSubject
  rw [hfe]
  dsimp only
  rw [hsubj, hid]
  rfl

/-- The ticket used by the C5 witness: id 10, with an established
thread. -/
def subTen : Submission :=
  { id := 10
    site_id := 1
    form_id := 7
    fluent_form_id := 9
    status := "new"
    data := []
    submitter_name := some "Bob"
    submitter_email := some "bob@x.com"
    subject := some "Help me"
    message := some "original question"
    gmail_thread_id := some "T1"
    is_active := true }

/-- The first thread row of ticket 10, already carrying the wrapped
subject, plus two later follow-ups without native ids before one with
a different subject — history noise the derivation must ignore. -/
def feTen : EmailThreadRow :=
  { id := 1
    submission_id := 10
    user_id := some 1
    direction := "outbound"
    subject := some "Re: Help me Ticket: #10"
    body := "first reply"
    message_id := some "<a@x>"
    to_email := some "bob@x.com"
    from_email := some "admin@x.com"
    status := some "sent"
    created_at := 1
    gmail_message_id := some "g1"
    gmail_thread_id := some "T1" }

/-- A later follow-up row of ticket 10. -/
def feTen2 : EmailThreadRow :=
  { feTen with
    id := 2
    subject := some "Re: Help me Ticket: #10"
    message_id := some "<b@x>"
    created_at := 2
    gmail_message_id := some "g2" }

/-- An unrelated row of another ticket, listed first. -/
def feOther : EmailThreadRow :=
  { feTen with
    id := 3
    submission_id := 11
    subject := some "Re: Other Ticket: #11"
    message_id := some "<c@x>"
    created_at := 3
    gmail_message_id := some "g3" }

/-- C5 witness: the theorem applied to a concrete history with several
rows (an unrelated ticket first, then the first row of ticket 10, then
a follow-up). -/
theorem composeFollowupSubject_idempotent_witness :
    (subTen.id = 10 ∧
      [feOther, feTen, feTen2].find?
        (fun e => e.submission_id = subTen.id && e.gmail_thread_id.isSome) = some feTen ∧
      feTen.subject = some "Re: Help me Ticket: #10") ∧
    composeFollowupSubject [feOther, feTen, feTen2] subTen = "Re: Help me Ticket: #10" :=
  ⟨⟨rfl, rfl, rfl⟩,
    composeFollowupSubject_idempotent [feOther, feTen, feTen2] subTen feTen rfl rfl rfl⟩

/-- C8: when the outbound send attempt fails, create_email still
persists the EmailThread row with status failed and the locally
generated placeholder message id, leaves the submissions untouched,
and reports the delivery-failure signal — which is distinct from the
creation result and from the record-not-created (commit failure)
result. -/
theorem create_email_failure_persists_row
    (sender : String) (userId : Nat) (inp : EmailCreate) (uuid : String)
    (st : AppState) (sub : Submission)
    (hfind : findSub st.submissions inp.submission_id = some sub)
    (hmail : pyTruthy sub.submitter_email = true)
    (hval : pyTruthy sub.gmail_thread_id = true ∨ pyTruthy inp.subject = true)
    (hdir : inp.direction = "outbound") :
    ∃ row,
      (create_email sender userId inp SendOutcome.err uuid true st).1.emails =
        st.emails ++ [row] ∧
      (create_email sender userId inp SendOutcome.err uuid true st).2.1 =
        EmailResult.deliveryFailed row ∧
      row.status = some "failed" ∧
      row.message_id = some uuid ∧
      row.body = inp.body ∧
      row.submission_id = inp.submission_id ∧
      (create_email sender userId inp SendOutcome.err uuid true st).1.submissions =
        st.submissions ∧
      (∀ r, (create_email sender userId inp SendOutcome.err uuid true st).2.1 ≠
        EmailResult.created r) ∧
      (create_email sender userId inp SendOutcome.err uuid true st).2.1 ≠
        EmailResult.saveFailed := by
  unfold create_email
  rw [hfind]
  dsimp only
  rw [hmail]
  have hcond : (! pyTruthy sub.gmail_thread_id && ! pyTruthy inp.subject) = false := by
    rcases hval with h | h <;> simp [h]
  rw [hcond]
  simp only [Bool.false_eq_true, if_false, if_neg, hdir, ite_true, if_pos]
  refine ⟨_, rfl, rfl, rfl, rfl, rfl, rfl, rfl, ?_, ?_⟩
  · intro r h
    cases h
  · intro h
    cases h

/-- C8 witness: the theorem applied to the concrete fixture state (a
first email for ticket 42 whose send fails). -/
theorem create_email_failure_persists_row_witness :
    (findSub stFix.submissions 42 = some subFix ∧
      pyTruthy subFix.submitter_email = true) ∧
    (∃ row,
      (create_email senderFix 5
        { submission_id := 42, subject := some "Help me", body := "hello", direction := "outbound" }
        SendOutcome.err "uuid-1" true stFix).1.emails = stFix.emails ++ [row] ∧
      (create_email senderFix 5
        { submission_id := 42, subject := some "Help me", body := "hello", direction := "outbound" }
        SendOutcome.err "uuid-1" true stFix).2.1 = EmailResult.deliveryFailed row ∧
      row.status = some "failed" ∧
      row.message_id = some "uuid-1" ∧
      row.body = "hello" ∧
      row.submission_id = 42 ∧
      (create_email senderFix 5
        { submission_id := 42, subject := some "Help me", body := "hello", direction := "outbound" }
        SendOutcome.err "uuid-1" true stFix).1.submissions = stFix.submissions ∧
      (∀ r, (create_email senderFix 5
        { submission_id := 42, subject := some "Help me", body := "hello", direction := "outbound" }
        SendOutcome.err "uuid-1" true stFix).2.1 ≠ EmailResult.created r) ∧
      (create_email senderFix 5
        { submission_id := 42, subject := some "Help me", body := "hello", direction := "outbound" }
        SendOutcome.err "uuid-1" true stFix).2.1 ≠ EmailResult.saveFailed) :=
  ⟨⟨rfl, rfl⟩,
    create_email_failure_persists_row senderFix 5
      { submission_id := 42, subject := some "Help me", body := "hello", direction := "outbound" }
      "uuid-1" stFix subFix rfl rfl (Or.inr rfl) rfl⟩

/-- C10: on every sync pass, an existing Submission matched by a
remote entry has exactly its six mutable fields rewritten in place —
and status is among them, unconditionally set to the remote status
(default pending) whatever its local value was, so a locally set
lifecycle status (for example in_progress) does not survive the next
sync.  All other columns (id, site, form, remote entry id,
gmail_thread_id, is_active) are untouched, as the record update in the
conclusion shows. -/
theorem sync_update_overwrites_status
    (siteId formId : Nat) (store : List Submission) (nextId count : Nat)
    (e : RawEntry) (j : Nat) (s : Submission)
    (hj : store.get? j = some s)
    (hmatch : entryMatches siteId formId e s = true) :
    ((upsertOne siteId formId (store, nextId, count) e).1).get? j =
      some { s with
        status := e.status.getD "pending"
        data := cleanData (parsedContent e)
        submitter_name := extractSubmitterName (parsedContent e)
        submitter_email := extractStrField (parsedContent e) "email"
        subject := extractStrField (parsedContent e) "subject"
        message := extractStrField (parsedContent e) "message" } := by
  have hmem : s ∈ store := List.get?_mem hj
  have hany : store.any (entryMatches siteId formId e) = true :=
    List.any_eq_true.mpr ⟨s, hmem, hmatch⟩
  unfold upsertOne
  dsimp only
  rw [if_pos hany]
  rw [List.get?_map, hj]
  simp only [Option.map_some']
  rw [if_pos hmatch]
  rfl

/-- The ticket of the C10 witness: flipped to in_progress locally (as
the Inbound Reply Matcher does). -/
def subProg : Submission := { subFix with status := "in_progress" }

/-- C10 witness: the theorem applied to a store whose only row is in
in_progress and a matching bare remote entry; the row comes out with
status pending (the remote default), not in_progress. -/
theorem sync_update_overwrites_status_witness :
    ([subProg].get? 0 = some subProg ∧
      entryMatches 1 7 (entryBare 3) subProg = true) ∧
    ((upsertOne 1 7 ([subProg], 44, 0) (entryBare 3)).1).get? 0 =
      some { subProg with
        status := (entryBare 3).status.getD "pending"
        data := cleanData (parsedContent (entryBare 3))
        submitter_name := extractSubmitterName (parsedContent (entryBare 3))
        submitter_email := extractStrField (parsedContent (entryBare 3)) "email"
        subject := extractStrField (parsedContent (entryBare 3)) "subject"
        message := extractStrField (parsedContent (entryBare 3)) "message" } ∧
    (((upsertOne 1 7 ([subProg], 44, 0) (entryBare 3)).1).get? 0).map
      (fun s => s.status) = some "pending" :=
  ⟨⟨rfl, by decide⟩,
    sync_update_overwrites_status 1 7 [subProg] 44 0 (entryBare 3) 0 subProg rfl (by decide),
    rfl⟩

/-- Pointwise effect of a query-then-mutate on the first matching row:
every position holds either its old row or the mutated old row (and
then the row satisfied the query). -/
theorem updateFirstWhere_get?_cases (q : Submission → Bool) (f : Submission → Submission)
    (l : List Submission) (j : Nat) (s : Submission) (hj : l.get? j = some s) :
    ∃ s', (updateFirstWhere q f l).get? j = some s' ∧
      (s' = s ∨ (q s = true ∧ s' = f s)) := by
  induction l generalizing j with
  | nil => cases hj
  | cons a rest ih =>
      by_cases hqa : q a = true
      · cases j with
        | zero =>
            have ha : a = s := by simpa using hj
            subst ha
            refine ⟨f a, ?_, Or.inr ⟨hqa, rfl⟩⟩
            simp only [updateFirstWhere, if_pos hqa]
            rfl
        | succ j =>
            have hj' : rest.get? j = some s := by simpa using hj
            refine ⟨s, ?_, Or.inl rfl⟩
            simp only [updateFirstWhere, if_pos hqa]
            exact hj'
      · cases j with
        | zero =>
            have ha : a = s := by simpa using hj
            subst ha
            refine ⟨a, ?_, Or.inl rfl⟩
            simp only [updateFirstWhere, if_neg hqa]
            rfl
        | succ j =>
            have hj' : rest.get? j = some s := by simpa using hj
            obtain ⟨s', h', hrel⟩ := ih j hj'
            refine ⟨s', ?_, hrel⟩
            simp only [updateFirstWhere, if_neg hqa]
            exact h'

/-- Pointwise effect of one upsert: every existing position holds its
old row or the entry applied to it; new rows are appended behind. -/
theorem upsertOne_get?_cases (siteId formId : Nat) (acc : SyncAcc) (e : RawEntry)
    (j : Nat) (s : Submission) (hj : acc.1.get? j = some s) :
    ∃ s', ((upsertOne siteId formId acc e).1).get? j = some s' ∧
      (s' = s ∨ s' = applyEntry e s) := by
  obtain ⟨store, nextId, count⟩ := acc
  unfold upsertOne
  dsimp only at hj ⊢
  by_cases hany : store.any (entryMatches siteId formId e) = true
  · rw [if_pos hany]
    refine ⟨if entryMatches siteId formId e s = true then applyEntry e s else s, ?_, ?_⟩
    · rw [List.get?_map, hj]
      rfl
    · by_cases hm : entryMatches siteId formId e s = true
      · rw [if_pos hm]
        exact Or.inr rfl
      · rw [if_neg hm]
        exact Or.inl rfl
  · rw [if_neg hany]
    have hlt : j < store.length := (List.get?_eq_some.mp hj).1
    exact ⟨s, by rw [List.get?_append hlt]; exact hj, Or.inl rfl⟩

/-- The whole entry loop preserves each existing row's position, its
primary key and its gmail_thread_id (the upsert never touches that
column). -/
theorem syncFold_get?_cases (siteId formId : Nat) :
    ∀ (entries : List RawEntry) (acc : SyncAcc) (j : Nat) (s : Submission),
    acc.1.get? j = some s →
    ∃ s', ((entries.foldl (upsertOne siteId formId) acc).1).get? j = some s' ∧
      s'.gmail_thread_id = s.gmail_thread_id ∧ s'.id = s.id := by
  intro entries
  induction entries with
  | nil => exact fun acc j s hj => ⟨s, hj, rfl, rfl⟩
  | cons e rest ih =>
      intro acc j s hj
      obtain ⟨s1, h1, hrel⟩ := upsertOne_get?_cases siteId formId acc e j s hj
      obtain ⟨s', h', hth, hid⟩ := ih (upsertOne siteId formId acc e) j s1 h1
      refine ⟨s', by simpa [List.foldl] using h', ?_, ?_⟩
      · rcases hrel with h | h <;> subst h
        · exact hth
        · exact hth
      · rcases hrel with h | h <;> subst h
        · exact hid
        · exact hid

set_option maxHeartbeats 1000000 in
/-- The only write create_email ever makes to the submissions table is
the guarded set-if-unset of gmail_thread_id on the addressed ticket
(email.py lines 181-183). -/
theorem create_email_submissions_cases
    (sender : String) (userId : Nat) (inp : EmailCreate) (outcome : SendOutcome)
    (uuid : String) (commitOk : Bool) (st : AppState) :
    (create_email sender userId inp outcome uuid commitOk st).1.submissions = st.submissions ∨
    ∃ tid, (create_email sender userId inp outcome uuid commitOk st).1.submissions =
      updateFirstWhere (fun s => s.id = inp.submission_id)
        (fun s => if pyTruthy s.gmail_thread_id = true then s
          else { s with gmail_thread_id := tid })
        st.submissions := by
  unfold create_email
  cases hfind : findSub st.submissions inp.submission_id with
  | none =>
      left
      rfl
  | some sub =>
      dsimp only
      rcases outcome with ⟨gid, tid, mh⟩ | _ <;>
        repeat' split
      all_goals
        first
          | (left; rfl)
          | (right; exact ⟨_, rfl⟩)

set_option maxHeartbeats 1000000 in
/-- The only write the on-demand inbound sync makes to the submissions
table is the in_progress status flip of the matched ticket. -/
theorem syncGmailStep_submissions_cases
    (sender : String) (st : AppState) (brief : MsgBrief) (fetched : FetchResult) :
    (syncGmailStep sender st brief fetched).1.submissions = st.submissions ∨
    ∃ q : Submission → Bool,
      (syncGmailStep sender st brief fetched).1.submissions =
        updateFirstWhere q (fun s => { s with status := "in_progress" })
          st.submissions := by
  unfold syncGmailStep
  dsimp only
  repeat' split
  all_goals
    first
      | (left; rfl)
      | (right; exact ⟨_, rfl⟩)

set_option maxHeartbeats 1000000 in
/-- The only write the scheduled poll makes to the submissions table
is the in_progress status flip of the matched ticket. -/
theorem pollGmailStep_submissions_cases
    (sender : String) (st : AppState) (brief : MsgBrief) (fetched : FetchResult) :
    (pollGmailStep sender st brief fetched).1.submissions = st.submissions ∨
    ∃ q : Submission → Bool,
      (pollGmailStep sender st brief fetched).1.submissions =
        updateFirstWhere q (fun s => { s with status := "in_progress" })
          st.submissions := by
  unfold pollGmailStep
  dsimp only
  repeat' split
  all_goals
    first
      | (left; rfl)
      | (right; exact ⟨_, rfl⟩)

/-- One modelled operation never changes a truthy gmail_thread_id of
any stored submission, and keeps its position and primary key. -/
theorem applyOp_preserves_thread (sender : String) (st : AppState) (op : Operation)
    (j : Nat) (s : Submission)
    (hj : st.submissions.get? j = some s)
    (htr : pyTruthy s.gmail_thread_id = true) :
    ∃ s', (applyOp sender st op).submissions.get? j = some s' ∧
      s'.gmail_thread_id = s.gmail_thread_id ∧ s'.id = s.id := by
  cases op with
  | sendEmail userId inp outcome uuid commitOk =>
      show ∃ s', (create_email sender userId inp outcome uuid commitOk st).1.submissions.get? j
        = some s' ∧ _
      rcases create_email_submissions_cases sender userId inp outcome uuid commitOk st with
        h | ⟨tid, h⟩
      · exact ⟨s, by rw [h]; exact hj, rfl, rfl⟩
      · rw [h]
        obtain ⟨s', h', hrel⟩ := updateFirstWhere_get?_cases _ _ st.submissions j s hj
        rcases hrel with rfl | ⟨hq, rfl⟩
        · exact ⟨_, h', rfl, rfl⟩
        · refine ⟨_, h', ?_⟩
          rw [if_pos htr]
          exact ⟨rfl, rfl⟩
  | inboundSyncMsg brief fetched =>
      show ∃ s', (syncGmailStep sender st brief fetched).1.submissions.get? j = some s' ∧ _
      rcases syncGmailStep_submissions_cases sender st brief fetched with h | ⟨q, h⟩
      · exact ⟨s, by rw [h]; exact hj, rfl, rfl⟩
      · rw [h]
        obtain ⟨s', h', hrel⟩ := updateFirstWhere_get?_cases _ _ st.submissions j s hj
        rcases hrel with rfl | ⟨hq, rfl⟩
        · exact ⟨_, h', rfl, rfl⟩
        · exact ⟨_, h', rfl, rfl⟩
  | pollMsg brief fetched =>
      show ∃ s', (pollGmailStep sender st brief fetched).1.submissions.get? j = some s' ∧ _
      rcases pollGmailStep_submissions_cases sender st brief fetched with h | ⟨q, h⟩
      · exact ⟨s, by rw [h]; exact hj, rfl, rfl⟩
      · rw [h]
        obtain ⟨s', h', hrel⟩ := updateFirstWhere_get?_cases _ _ st.submissions j s hj
        rcases hrel with rfl | ⟨hq, rfl⟩
        · exact ⟨_, h', rfl, rfl⟩
        · exact ⟨_, h', rfl, rfl⟩
  | siteSync siteId formId remote =>
      show ∃ s', ((syncSiteCore siteId formId remote st.submissions st.nextSubId).1).get? j
        = some s' ∧ _
      unfold syncSiteCore syncEntries
      exact syncFold_get?_cases siteId formId _ (st.submissions, st.nextSubId, 0) j s hj

/-- C3: once a ticket's gmailThreadId holds a real (non-empty) thread
id, no sequence of modelled operations — outbound sends presenting a
different thread id, inbound matches of either matcher, site syncs —
ever changes it: the row at the same position still has the same
primary key and the same gmailThreadId. -/
theorem gmail_thread_id_immutable (sender : String) (ops : List Operation)
    (st : AppState) (j : Nat) (s : Submission) (t : String)
    (ht : t ≠ "")
    (hj : st.submissions.get? j = some s)
    (hs : s.gmail_thread_id = some t) :
    ∃ s', (applyOps sender st ops).submissions.get? j = some s' ∧
      s'.gmail_thread_id = some t ∧ s'.id = s.id := by
  induction ops generalizing st s with
  | nil => exact ⟨s, hj, hs, rfl⟩
  | cons op rest ih =>
      have htr : pyTruthy s.gmail_thread_id = true := by
        rw [hs]
        simp [pyTruthy, ht]
      obtain ⟨s1, h1, hth, hid⟩ := applyOp_preserves_thread sender st op j s hj htr
      have hs1 : s1.gmail_thread_id = some t := by rw [hth, hs]
      obtain ⟨s', h', hth', hid'⟩ := ih (applyOp sender st op) s1 h1 hs1
      exact ⟨s', by simpa [applyOps, List.foldl] using h', hth', by rw [hid', hid]⟩

/-- The ticket of the C3 witness: thread already established as T1. -/
def subT1 : Submission := { subFix with gmail_thread_id := some "T1" }

/-- The state of the C3 witness. -/
def stT1 : AppState :=
  { submissions := [subT1]
    emails := []
    nextSubId := 43
    nextEmailId := 1
    nextTime := 1 }

/-- The operations of the C3 witness: a follow-up outbound send whose
gateway response presents the different thread id T2, an inbound
match of the on-demand matcher presenting thread id T999, a scheduled
poll message, and a site sync touching the same ticket. -/
def opsT1 : List Operation :=
  [Operation.sendEmail 5
      { submission_id := 42, subject := some "More", body := "again", direction := "outbound" }
      (SendOutcome.ok "g2" (some "T2") (some "<z@x>")) "u2" true,
    Operation.inboundSyncMsg briefFix (FetchResult.ok dataFix),
    Operation.pollMsg briefFix (FetchResult.ok dataFix),
    Operation.siteSync 1 7 [entryOk 3]]

/-- C3 witness: the theorem applied to the concrete trace; the ticket
still carries thread id T1 afterwards. -/
theorem gmail_thread_id_immutable_witness :
    (stT1.submissions.get? 0 = some subT1 ∧
      subT1.gmail_thread_id = some "T1") ∧
    (∃ s', (applyOps senderFix stT1 opsT1).submissions.get? 0 = some s' ∧
      s'.gmail_thread_id = some "T1" ∧ s'.id = subT1.id) :=
  ⟨⟨rfl, rfl⟩,
    gmail_thread_id_immutable senderFix opsT1 stT1 0 subT1 "T1" (by decide) rfl rfl⟩

/-- A store row matches an entry exactly when its uniqueness-constraint
triple equals the entry's (site, form, remote id) key. -/
theorem entryMatches_iff_triple (siteId formId : Nat) (e : RawEntry) (s : Submission) :
    entryMatches siteId formId e s = true ↔ tripleOf s = (siteId, formId, e.id) := by
  simp [entryMatches, tripleOf, Prod.ext_iff, and_assoc]

/-- The duplicate test of the upsert is exactly membership of the
entry's key among the stored triples. -/
theorem any_entryMatches_iff (siteId formId : Nat) (e : RawEntry) (store : List Submission) :
    store.any (entryMatches siteId formId e) = true ↔
      (siteId, formId, e.id) ∈ triples store := by
  rw [List.any_eq_true]
  unfold triples
  rw [List.mem_map]
  constructor
  · rintro ⟨s, hs, hm⟩
    exact ⟨s, hs, (entryMatches_iff_triple siteId formId e s).mp hm⟩
  · rintro ⟨s, hs, hm⟩
    exact ⟨s, hs, (entryMatches_iff_triple siteId formId e s).mpr hm⟩

/-- Every processed entry bumps submissions_synced by one. -/
theorem upsertOne_count (siteId formId : Nat) (acc : SyncAcc) (e : RawEntry) :
    (upsertOne siteId formId acc e).2.2 = acc.2.2 + 1 := by
  obtain ⟨store, nextId, count⟩ := acc
  unfold upsertOne
  dsimp only
  by_cases hany : store.any (entryMatches siteId formId e) = true
  · rw [if_pos hany]
  · rw [if_neg hany]

/-- submissions_synced counts exactly the processed entries. -/
theorem syncFold_count (siteId formId : Nat) :
    ∀ (entries : List RawEntry) (acc : SyncAcc),
    (entries.foldl (upsertOne siteId formId) acc).2.2 = acc.2.2 + entries.length := by
  intro entries
  induction entries with
  | nil => intro acc; simp [List.foldl]
  | cons e rest ih =>
      intro acc
      rw [List.foldl_cons, ih, upsertOne_count]
      simp only [List.length_cons]
      omega

/-- An upsert that finds its key updates in place: the triples and the
row count are unchanged. -/
theorem upsertOne_triples_of_match (siteId formId : Nat) (store : List Submission)
    (nextId count : Nat) (e : RawEntry)
    (hany : store.any (entryMatches siteId formId e) = true) :
    triples ((upsertOne siteId formId (store, nextId, count) e).1) = triples store ∧
    ((upsertOne siteId formId (store, nextId, count) e).1).length = store.length := by
  unfold upsertOne
  dsimp only
  rw [if_pos hany]
  constructor
  · unfold triples
    rw [List.map_map]
    apply List.map_congr_left
    intro s _
    by_cases hm : entryMatches siteId formId e s = true
    · simp only [Function.comp, if_pos hm]
      rfl
    · simp only [Function.comp, if_neg hm]
  · exact List.length_map _ _

/-- An upsert that does not find its key appends a row carrying
exactly that key. -/
theorem upsertOne_triples_of_new (siteId formId : Nat) (store : List Submission)
    (nextId count : Nat) (e : RawEntry)
    (hany : store.any (entryMatches siteId formId e) = false) :
    triples ((upsertOne siteId formId (store, nextId, count) e).1) =
      triples store ++ [(siteId, formId, e.id)] := by
  unfold upsertOne
  dsimp only
  rw [if_neg (by simp [hany])]
  unfold triples
  rw [List.map_append]
  rfl

/-- An upsert never removes a stored triple. -/
theorem upsertOne_triples_superset (siteId formId : Nat) (acc : SyncAcc) (e : RawEntry)
    (t : Nat × Nat × Nat) (ht : t ∈ triples acc.1) :
    t ∈ triples ((upsertOne siteId formId acc e).1) := by
  obtain ⟨store, nextId, count⟩ := acc
  by_cases hany : store.any (entryMatches siteId formId e) = true
  · rw [(upsertOne_triples_of_match siteId formId store nextId count e hany).1]
    exact ht
  · rw [upsertOne_triples_of_new siteId formId store nextId count e (by simpa using hany)]
    exact List.mem_append_left _ ht

/-- After upserting an entry its key is stored. -/
theorem upsertOne_key_present (siteId formId : Nat) (acc : SyncAcc) (e : RawEntry) :
    (siteId, formId, e.id) ∈ triples ((upsertOne siteId formId acc e).1) := by
  obtain ⟨store, nextId, count⟩ := acc
  by_cases hany : store.any (entryMatches siteId formId e) = true
  · rw [(upsertOne_triples_of_match siteId formId store nextId count e hany).1]
    exact (any_entryMatches_iff siteId formId e store).mp hany
  · rw [upsertOne_triples_of_new siteId formId store nextId count e (by simpa using hany)]
    exact List.mem_append_right _ (by simp)

/-- The entry loop never removes a stored triple. -/
theorem syncFold_superset (siteId formId : Nat) :
    ∀ (entries : List RawEntry) (acc : SyncAcc) (t : Nat × Nat × Nat),
    t ∈ triples acc.1 →
    t ∈ triples ((entries.foldl (upsertOne siteId formId) acc).1) := by
  intro entries
  induction entries with
  | nil => exact fun acc t ht => ht
  | cons e rest ih =>
      intro acc t ht
      rw [List.foldl_cons]
      exact ih _ t (upsertOne_triples_superset siteId formId acc e t ht)

/-- After one pass every processed entry's key is stored. -/
theorem syncFold_complete (siteId formId : Nat) :
    ∀ (entries : List RawEntry) (acc : SyncAcc) (e : RawEntry), e ∈ entries →
    (siteId, formId, e.id) ∈ triples ((entries.foldl (upsertOne siteId formId) acc).1) := by
  intro entries
  induction entries with
  | nil => intro acc e he; cases he
  | cons e0 rest ih =>
      intro acc e he
      rw [List.foldl_cons]
      rcases List.mem_cons.mp he with rfl | he'
      · exact syncFold_superset siteId formId rest _ _
          (upsertOne_key_present siteId formId acc e)
      · exact ih (upsertOne siteId formId acc e0) e he'

/-- One upsert preserves the storage uniqueness constraint: a row is
appended only when its key is absent. -/
theorem upsertOne_nodup (siteId formId : Nat) (acc : SyncAcc) (e : RawEntry)
    (h : (triples acc.1).Nodup) :
    (triples ((upsertOne siteId formId acc e).1)).Nodup := by
  obtain ⟨store, nextId, count⟩ := acc
  by_cases hany : store.any (entryMatches siteId formId e) = true
  · rw [(upsertOne_triples_of_match siteId formId store nextId count e hany).1]
    exact h
  · rw [upsertOne_triples_of_new siteId formId store nextId count e (by simpa using hany)]
    have hnot : (siteId, formId, e.id) ∉ triples store := by
      intro hmem
      rw [← any_entryMatches_iff siteId formId e store] at hmem
      simp [hmem] at hany
    simp [List.nodup_append, h, hnot]

/-- The entry loop preserves the uniqueness constraint. -/
theorem syncFold_nodup (siteId formId : Nat) :
    ∀ (entries : List RawEntry) (acc : SyncAcc), (triples acc.1).Nodup →
    (triples ((entries.foldl (upsertOne siteId formId) acc).1)).Nodup := by
  intro entries
  induction entries with
  | nil => exact fun acc h => h
  | cons e rest ih =>
      intro acc h
      rw [List.foldl_cons]
      exact ih _ (upsertOne_nodup siteId formId acc e h)

/-- When every processed entry's key is already stored, the loop only
updates in place: the stored triples do not change at all. -/
theorem syncFold_no_growth (siteId formId : Nat) :
    ∀ (entries : List RawEntry) (acc : SyncAcc),
    (∀ e ∈ entries, (siteId, formId, e.id) ∈ triples acc.1) →
    triples ((entries.foldl (upsertOne siteId formId) acc).1) = triples acc.1 := by
  intro entries
  induction entries with
  | nil => exact fun acc _ => rfl
  | cons e rest ih =>
      intro acc hall
      obtain ⟨store, nextId, count⟩ := acc
      have hany : store.any (entryMatches siteId formId e) = true :=
        (any_entryMatches_iff siteId formId e store).mpr (hall e (by simp))
      have hm := upsertOne_triples_of_match siteId formId store nextId count e hany
      rw [List.foldl_cons, ih _ ?_, hm.1]
      intro e' he'
      rw [hm.1]
      exact hall e' (by simp [he'])

set_option maxRecDepth 1000000 in
/-- C2 counterexample: with an unchanged remote set of 51 entries both
passes return submissionsSynced 50, so the returned count does not
count every remote entry — the engine only counts the single fetched
page (the dedup part of the claim is untouched). -/
theorem sync_twice_counts_fetched_not_remote_cex :
    (syncSiteCore 1 7 remote51 [] 1).2.2 = 50 ∧
    (syncSiteCore 1 7 remote51
      (syncSiteCore 1 7 remote51 [] 1).1
      (syncSiteCore 1 7 remote51 [] 1).2.1).2.2 = 50 ∧
    remote51.length = 51 ∧ (50 : Nat) ≠ 51 :=
  ⟨rfl, rfl, rfl, by decide⟩

/-- C2 as amended: syncing the same site twice against an unchanged
remote entry set inserts no duplicate rows — the (site, form, remote
entry) triples stay pairwise distinct, the invariant backing the
storage-level unique constraint — and submissionsSynced counts every
fetched remote entry (the single requested page of up to 50) on both
passes; the second pass updates rows in place, with the stored triples
and the row count unchanged. -/
theorem sync_twice_idempotent
    (siteId formId : Nat) (remote : List RawEntry) (store : List Submission)
    (nextId : Nat) (h : UniqueTriples store) :
    (syncSiteCore siteId formId remote store nextId).2.2 =
      (wpGetFormEntries remote 1 50).length ∧
    (syncSiteCore siteId formId remote
      (syncSiteCore siteId formId remote store nextId).1
      (syncSiteCore siteId formId remote store nextId).2.1).2.2 =
      (wpGetFormEntries remote 1 50).length ∧
    UniqueTriples (syncSiteCore siteId formId remote store nextId).1 ∧
    UniqueTriples (syncSiteCore siteId formId remote
      (syncSiteCore siteId formId remote store nextId).1
      (syncSiteCore siteId formId remote store nextId).2.1).1 ∧
    triples (syncSiteCore siteId formId remote
      (syncSiteCore siteId formId remote store nextId).1
      (syncSiteCore siteId formId remote store nextId).2.1).1 =
      triples (syncSiteCore siteId formId remote store nextId).1 ∧
    (syncSiteCore siteId formId remote
      (syncSiteCore siteId formId remote store nextId).1
      (syncSiteCore siteId formId remote store nextId).2.1).1.length =
      (syncSiteCore siteId formId remote store nextId).1.length := by
  unfold syncSiteCore syncEntries
  set fetched := wpGetFormEntries remote 1 50 with hf
  have hcount1 := syncFold_count siteId formId fetched (store, nextId, 0)
  have hnodup1 := syncFold_nodup siteId formId fetched (store, nextId, 0) h
  set p1 := fetched.foldl (upsertOne siteId formId) (store, nextId, 0) with hp1
  have hcount2 := syncFold_count siteId formId fetched (p1.1, p1.2.1, 0)
  have hcomplete : ∀ e ∈ fetched, (siteId, formId, e.id) ∈ triples p1.1 :=
    fun e he => syncFold_complete siteId formId fetched (store, nextId, 0) e he
  have hng := syncFold_no_growth siteId formId fetched (p1.1, p1.2.1, 0) hcomplete
  have hnodup2 := syncFold_nodup siteId formId fetched (p1.1, p1.2.1, 0) hnodup1
  refine ⟨by simpa using hcount1, by simpa using hcount2, hnodup1, hnodup2, hng, ?_⟩
  have hlen : ∀ l : List Submission, l.length = (triples l).length := by
    intro l
    unfold triples
    rw [List.length_map]
  rw [hlen, hlen p1.1, hng]

/-- C2 witness: the amended theorem applied to an empty store and a
remote set of two entries. -/
theorem sync_twice_idempotent_witness :
    UniqueTriples ([] : List Submission) ∧
    ((syncSiteCore 1 7 [entryOk 1, entryOk 2] [] 1).2.2 =
      (wpGetFormEntries [entryOk 1, entryOk 2] 1 50).length ∧
    (syncSiteCore 1 7 [entryOk 1, entryOk 2]
      (syncSiteCore 1 7 [entryOk 1, entryOk 2] [] 1).1
      (syncSiteCore 1 7 [entryOk 1, entryOk 2] [] 1).2.1).2.2 =
      (wpGetFormEntries [entryOk 1, entryOk 2] 1 50).length ∧
    UniqueTriples (syncSiteCore 1 7 [entryOk 1, entryOk 2] [] 1).1 ∧
    UniqueTriples (syncSiteCore 1 7 [entryOk 1, entryOk 2]
      (syncSiteCore 1 7 [entryOk 1, entryOk 2] [] 1).1
      (syncSiteCore 1 7 [entryOk 1, entryOk 2] [] 1).2.1).1 ∧
    triples (syncSiteCore 1 7 [entryOk 1, entryOk 2]
      (syncSiteCore 1 7 [entryOk 1, entryOk 2] [] 1).1
      (syncSiteCore 1 7 [entryOk 1, entryOk 2] [] 1).2.1).1 =
      triples (syncSiteCore 1 7 [entryOk 1, entryOk 2] [] 1).1 ∧
    (syncSiteCore 1 7 [entryOk 1, entryOk 2]
      (syncSiteCore 1 7 [entryOk 1, entryOk 2] [] 1).1
      (syncSiteCore 1 7 [entryOk 1, entryOk 2] [] 1).2.1).1.length =
      (syncSiteCore 1 7 [entryOk 1, entryOk 2] [] 1).1.length) :=
  ⟨List.nodup_nil, sync_twice_idempotent 1 7 [entryOk 1, entryOk 2] [] 1 List.nodup_nil⟩
